import Mathlib

/-!
Verification of the DanglingDelegate checker
(src/analyzer/DanglingDelegateChecker.cpp, DanglingDelegateFactFinder.cpp,
DanglingDelegateCommon.cpp) against its natural-language specification.

The development is a shallow embedding: `std::set<std::string>` is modelled
as a duplicate-free list of strings (membership, insert, erase and
iteration semantics preserved; the alphabetical iteration order of
`std::set` is irrelevant to every property proved here), `std::map` as an
association list, and the clang AST / symbolic-value shapes consumed by the
checker are modelled by small structures carrying exactly the answers the
host AST queries would return (receiver kinds, matcher inputs, constraint
answers).  Fallible operations (`std::map::at`, which throws
`std::out_of_range` on a missing key) are modelled with `Except`.
-/

namespace DanglingDelegate

/-- Models `typedef std::set<std::string> StringSet` (DanglingDelegateCommon.h:25).
Modelled as a list without duplicates; insertion is a no-op on an element
already present, mirroring `std::set::insert`. -/
abbrev StringSet := List String

/-- Models `std::set<std::string>::insert`: adds the element if absent. -/
def setInsert (x : String) (s : StringSet) : StringSet :=
  if x ∈ s then s else s ++ [x]

/-- Models `std::set<std::string>::erase`: removes the element if present. -/
def setErase (x : String) (s : StringSet) : StringSet :=
  s.filter (fun y => y ≠ x)

/-- Character-list prefix test (`StringRef::startswith`), written with
structural recursion so that concrete instances reduce in the kernel. -/
def charListIsPrefix : List Char → List Char → Bool
  | [], _ => true
  | _ :: _, [] => false
  | c :: cs, d :: ds => c = d && charListIsPrefix cs ds

/-- Models `StringRef::startswith(p)` on strings. -/
def strStartsWith (p s : String) : Bool :=
  charListIsPrefix p.toList s.toList

/-- ASCII lowercasing of one character, as `StringRef::toLower` /
`x - 'A' + 'a'` do it. -/
def charToLowerAscii (c : Char) : Char :=
  if 'A' ≤ c ∧ c ≤ 'Z' then Char.ofNat (c.toNat + 32) else c

/-- An ObjC property declaration as resolved by the host AST
(`ObjCPropertyDecl`): its name, whether its setter kind is
`ObjCPropertyDecl::Assign` (non-owning), and the backing ivar
(`getPropertyIvarDecl`, by name), if any. -/
structure PropertyDecl where
  name : String
  setterKindAssign : Bool
  backingIvar : Option String
deriving DecidableEq, Repr

/-- Models `getPropertyNameFromSetterSelector` (DanglingDelegateCommon.cpp:73-83):
`"setDelegate:" -> "delegate"`.  Returns `""` unless the selector has at
least 5 characters and starts with `"set"`; otherwise drops the `"set"`
prefix and the trailing `":"` and lowercases the first remaining character
(the source computes `x - 'A' + 'a'` only for `'A' <= x <= 'Z'`). -/
def getPropertyNameFromSetterSelector (selectorStr : String) : String :=
  let l := selectorStr.toList
  if l.length < 5 ∨ ¬ charListIsPrefix ['s', 'e', 't'] l then ""
  else
    match (l.drop 3).dropLast with
    | [] => ""
    | c :: cs => String.mk (charToLowerAscii c :: cs)

/-- Models `FactFinder::IvarFacts` (DanglingDelegateFactFinder.h:32-44). -/
structure IvarFacts where
  mayStoreSelfInUnsafeProperty : StringSet
  mayTargetSelf : Bool
  mayObserveSelf : Bool
deriving DecidableEq, Repr

/-- Models `IvarFacts()` default constructor: empty set, both flags false. -/
def IvarFacts.empty : IvarFacts := ⟨[], false, false⟩

/-- Models `FactFinder::ObjCImplFacts` (DanglingDelegateFactFinder.h:58-81).
Ivars and shared singletons are identified by name. -/
structure ObjCImplFacts where
  ivarFactsMap : List (String × IvarFacts)
  sharedObserverFactsMap : List (String × StringSet)
  pseudoInitMethods : StringSet
  hasDealloc : Bool
deriving DecidableEq, Repr

/-- Models `ObjCImplFacts()` default constructor. -/
def ObjCImplFacts.empty : ObjCImplFacts := ⟨[], [], [], false⟩

/-- Models `std::map::operator[]` followed by a mutation of the mapped value:
find-or-default-insert, then apply `f` to the entry. -/
def mapUpdate (m : List (String × IvarFacts)) (k : String)
    (f : IvarFacts → IvarFacts) : List (String × IvarFacts) :=
  match m with
  | [] => [(k, f IvarFacts.empty)]
  | (k', v) :: rest =>
      if k' = k then (k', f v) :: rest else (k', v) :: mapUpdate rest k f

/-- Same find-or-default-insert-then-mutate for the shared-observer map. -/
def sharedMapUpdate (m : List (String × StringSet)) (k : String)
    (f : StringSet → StringSet) : List (String × StringSet) :=
  match m with
  | [] => [(k, f [])]
  | (k', v) :: rest =>
      if k' = k then (k', f v) :: rest else (k', v) :: sharedMapUpdate rest k f

/-- Models `ObjCImplFacts::ivarMayStoreSelfInUnsafeProperty`
(DanglingDelegateFactFinder.cpp:24-28): `_ivarFactsMap[ivarDecl]` then
insert the property name into `_mayStoreSelfInUnsafeProperty`. -/
def ObjCImplFacts.ivarMayStoreSelfInUnsafeProperty
    (facts : ObjCImplFacts) (ivar propName : String) : ObjCImplFacts :=
  { facts with
      ivarFactsMap := mapUpdate facts.ivarFactsMap ivar
        (fun f => { f with
          mayStoreSelfInUnsafeProperty :=
            setInsert propName f.mayStoreSelfInUnsafeProperty }) }

/-- Models `ObjCImplFacts::ivarMayTargetSelf` (DanglingDelegateFactFinder.cpp:30-34). -/
def ObjCImplFacts.ivarMayTargetSelf
    (facts : ObjCImplFacts) (ivar : String) : ObjCImplFacts :=
  { facts with
      ivarFactsMap := mapUpdate facts.ivarFactsMap ivar
        (fun f => { f with mayTargetSelf := true }) }

/-- Models `ObjCImplFacts::ivarMayObserveSelf` (DanglingDelegateFactFinder.cpp:36-40). -/
def ObjCImplFacts.ivarMayObserveSelf
    (facts : ObjCImplFacts) (ivar : String) : ObjCImplFacts :=
  { facts with
      ivarFactsMap := mapUpdate facts.ivarFactsMap ivar
        (fun f => { f with mayObserveSelf := true }) }

/-- Models `ObjCImplFacts::sharedObjectMayObserveSelfInMethod`
(DanglingDelegateFactFinder.cpp:42-47). -/
def ObjCImplFacts.sharedObjectMayObserveSelfInMethod
    (facts : ObjCImplFacts) (objectName methodName : String) : ObjCImplFacts :=
  { facts with
      sharedObserverFactsMap := sharedMapUpdate facts.sharedObserverFactsMap
        objectName (fun s => setInsert methodName s) }

/-- Whether a character is an ASCII lowercase letter (clang's
`isLowercase`). -/
def isLowerAlpha (c : Char) : Bool := 'a' ≤ c ∧ c ≤ 'z'

/-- clang's `startsWithWord` (IdentifierTable.cpp): `name` starts with
`word` and either ends there or continues with a non-lowercase character. -/
def startsWithWord : List Char → List Char → Bool
  | name, [] =>
      match name with
      | [] => true
      | c :: _ => ¬ isLowerAlpha c
  | [], _ :: _ => false
  | c :: cs, w :: ws => c = w && startsWithWord cs ws

/-- Models the host's (clang's) selector method-family computation for the
`init` family, as consumed through `_methDecl->getMethodFamily() == OMF_init`
(DanglingDelegateFactFinder.cpp:63): take the first selector slot (up to the
first `:`), strip leading underscores, and test `startsWithWord name "init"`.
The decl-level demotions clang applies (class methods, non-object return
types) are not modelled; no property proved here depends on them. -/
def isInitFamily (methName : String) : Bool :=
  let seg := methName.toList.takeWhile (fun c => c ≠ ':')
  let stripped := seg.dropWhile (fun c => c = '_')
  startsWithWord stripped ['i', 'n', 'i', 't']

/-- The fixed pseudo-init prefix list
(DanglingDelegateFactFinder.cpp:53-59); all entries lowercase. -/
def pseudoInitPrefixes : List String :=
  ["_init", "setup", "_setup", "load", "_load", "viewdidload", "_viewdidload"]

/-- Models `StringRef::startswith_lower(p)` for an already-lowercase `p`:
case-insensitive prefix test (ASCII lowercasing, as `StringRef` does). -/
def startswithLower (p methName : String) : Bool :=
  charListIsPrefix p.toList (methName.toList.map charToLowerAscii)

/-- Whether the method name matches some pseudo-init prefix — the loop at
DanglingDelegateFactFinder.cpp:72-79. -/
def matchesPseudoInitName (methName : String) : Bool :=
  pseudoInitPrefixes.any (fun p => startswithLower p methName)

/-- Models `FactFinder::VisitMethodDecl` (DanglingDelegateFactFinder.cpp:50-80):
init-family methods are recorded as pseudo-init and nothing else is done;
otherwise `dealloc` sets `_hasDealloc`, and a pseudo-init prefix match
records the method as pseudo-init. -/
def visitMethodDecl (methName : String) (facts : ObjCImplFacts) : ObjCImplFacts :=
  if isInitFamily methName then
    { facts with pseudoInitMethods := setInsert methName facts.pseudoInitMethods }
  else
    let facts :=
      if methName = "dealloc" then { facts with hasDealloc := true } else facts
    if matchesPseudoInitName methName then
      { facts with pseudoInitMethods := setInsert methName facts.pseudoInitMethods }
    else facts

/-- Models `matchObjCMessageWithPropertySetter` (DanglingDelegateCommon.cpp:105-127),
with the host-AST queries supplied as inputs: `accessorOneParam` stands for
"the resolved method decl exists, `isPropertyAccessor()`, and has exactly one
parameter"; `receiverProps` is the receiver interface's resolvable property
declarations (`none` when `getReceiverInterface()` is null).  The property
name is derived from the selector and looked up on the interface. -/
def matchMessageSetter (accessorOneParam : Bool)
    (receiverProps : Option (List PropertyDecl)) (selectorStr : String) :
    Option PropertyDecl :=
  if ¬ accessorOneParam then none
  else
    match receiverProps with
    | none => none
    | some props =>
        let propName := getPropertyNameFromSetterSelector selectorStr
        if propName = "" then none
        else props.find? (fun p => p.name = propName)

/-- Models `matchObjCMessageWithPropertyGetter` (DanglingDelegateCommon.cpp:85-103):
zero-parameter property accessor; the property name is the selector itself. -/
def matchMessageGetter (accessorZeroParam : Bool)
    (receiverProps : Option (List PropertyDecl)) (selectorStr : String) :
    Option PropertyDecl :=
  if ¬ accessorZeroParam then none
  else
    match receiverProps with
    | none => none
    | some props => props.find? (fun p => p.name = selectorStr)

/-- The host-AST answers about one `ObjCMessageExpr`, as consumed by
`FactFinder::VisitObjCMessageExpr` (DanglingDelegateFactFinder.cpp:94-140):
`hasReceiver` = `getInstanceReceiver() != null`; `firstArgIsSelf` =
`isObjCSelfExpr(getArgOfObjCMessageExpr(expr, 0))`; `receiverIvar` =
`matchIvarLValueExpression(*receiver)` (by ivar name); `receiverSingleton` =
`matchObservableSingletonObject(*receiver)` (`""` when unmatched);
`accessorOneParam`/`receiverProps` feed the setter matcher. -/
structure MsgInfo where
  hasReceiver : Bool
  firstArgIsSelf : Bool
  selectorStr : String
  receiverIvar : Option String
  receiverSingleton : String
  accessorOneParam : Bool
  receiverProps : Option (List PropertyDecl)
deriving DecidableEq, Repr

/-- The fact extraction performed on one message expression by
`FactFinder::VisitObjCMessageExpr`, before recursing into the children. -/
def factStep (methName : String) (i : MsgInfo) (facts : ObjCImplFacts) :
    ObjCImplFacts :=
  if ¬ i.hasReceiver then facts
  else if ¬ i.firstArgIsSelf then facts
  else
    match i.receiverIvar with
    | some ivar =>
        match matchMessageSetter i.accessorOneParam i.receiverProps i.selectorStr with
        | some propDecl =>
            if propDecl.setterKindAssign then
              facts.ivarMayStoreSelfInUnsafeProperty ivar propDecl.name
            else if strStartsWith "addTarget:" i.selectorStr then
              facts.ivarMayTargetSelf ivar
            else if strStartsWith "addObserver:" i.selectorStr then
              facts.ivarMayObserveSelf ivar
            else facts
        | none =>
            if strStartsWith "addTarget:" i.selectorStr then
              facts.ivarMayTargetSelf ivar
            else if strStartsWith "addObserver:" i.selectorStr then
              facts.ivarMayObserveSelf ivar
            else facts
    | none =>
        if i.receiverSingleton ≠ "" ∧ strStartsWith "addObserver:" i.selectorStr then
          facts.sharedObjectMayObserveSelfInMethod i.receiverSingleton methName
        else facts

mutual
/-- A statement/expression tree as walked by the `ConstStmtVisitor`:
a node is either an `ObjCMessageExpr` (with its matcher answers) or any
other statement; both have children. -/
inductive Stmt where
  | node : Option MsgInfo → StmtList → Stmt
/-- Children lists of `Stmt` nodes (a specialised list so that structural
recursion over the tree is available). -/
inductive StmtList where
  | nil : StmtList
  | cons : Stmt → StmtList → StmtList
end

mutual
/-- Models `FactFinder::Visit` over one statement: message expressions run
`VisitObjCMessageExpr` (fact extraction, then `VisitChildren`); every other
statement just visits its children (DanglingDelegateFactFinder.cpp:82-140). -/
def visitStmt (methName : String) : Stmt → ObjCImplFacts → ObjCImplFacts
  | .node none children, facts => visitStmtList methName children facts
  | .node (some i) children, facts =>
      visitStmtList methName children (factStep methName i facts)
/-- Models `FactFinder::VisitChildren`. -/
def visitStmtList (methName : String) : StmtList → ObjCImplFacts → ObjCImplFacts
  | .nil, facts => facts
  | .cons s rest, facts => visitStmtList methName rest (visitStmt methName s facts)
end

/-- An ObjC method as consumed by `checkASTDecl`: its name
(`getNameAsString`, i.e. the selector string) and its body (if any). -/
structure MethodDecl where
  name : String
  body : Option Stmt

/-- One iteration of the method loop in `checkASTDecl`
(DanglingDelegateChecker.cpp:264-276): `VisitMethodDecl`, then visit the
body if present.  Note that the body is visited regardless of how
`VisitMethodDecl` classified the method. -/
def runFactFinderMethod (facts : ObjCImplFacts) (m : MethodDecl) : ObjCImplFacts :=
  let facts := visitMethodDecl m.name facts
  match m.body with
  | none => facts
  | some b => visitStmt m.name b facts

/-- The whole fact-finding loop of `checkASTDecl` over a class
implementation's methods. -/
def runFactFinder (methods : List MethodDecl) (facts : ObjCImplFacts) :
    ObjCImplFacts :=
  methods.foldl runFactFinderMethod facts

/-- A diagnostic as filed with the reporting sink by
`verifyAndReportDangerousProperties` (DanglingDelegateChecker.cpp:196-247):
it names the ivar, the property, and the context string (`declName`).  The
human-readable message is a pure formatting of these fields and is not
modelled. -/
structure Diagnostic where
  ivarName : String
  propName : String
  declName : String
deriving DecidableEq, Repr

/-- Models `verifyAndReportDangerousProperties` (DanglingDelegateChecker.cpp:196-247):
emit one report for every dangerous property not found in the cleared set. -/
def verifyAndReportDangerousProperties (dangerousProperties clearedProperties :
    StringSet) (ivarName declName : String) : List Diagnostic :=
  (dangerousProperties.filter (fun p => p ∉ clearedProperties)).map
    (fun p => ⟨ivarName, p, declName⟩)

/-- The class-wide scan at the end of `checkASTDecl`
(DanglingDelegateChecker.cpp:290-305): when the class has no `dealloc` and
ARC is enabled, report every dangerous property of every interesting ivar
against the empty cleared set. -/
def checkASTDeclScan (facts : ObjCImplFacts) (arcEnabled : Bool) :
    List Diagnostic :=
  if ¬ facts.hasDealloc ∧ arcEnabled then
    (facts.ivarFactsMap.map (fun e =>
      verifyAndReportDangerousProperties e.2.mayStoreSelfInUnsafeProperty []
        e.1 "ARC-generated dealloc")).flatten
  else []

/-- Models `IvarDynamicState` (DanglingDelegateChecker.cpp:79-117): the per-path
state of one interesting ivar. -/
structure IvarDynamicState where
  assignPropertyWasCleared : StringSet
  targetWasCleared : Bool
  observerWasCleared : Bool
deriving DecidableEq, Repr

/-- Models `IvarDynamicState()` default constructor
(DanglingDelegateChecker.cpp:89): nothing cleared yet. -/
def IvarDynamicState.empty : IvarDynamicState := ⟨[], false, false⟩

/-- Models `IvarDynamicState(const IvarFacts &)` (DanglingDelegateChecker.cpp:103-106):
the all-cleared state for an ivar — every recorded unsafe property is in the
cleared set and the flags copy the recorded target/observer facts. -/
def IvarDynamicState.fromFacts (f : IvarFacts) : IvarDynamicState :=
  ⟨f.mayStoreSelfInUnsafeProperty, f.mayTargetSelf, f.mayObserveSelf⟩

/-- Models `IvarDynamicState(const IvarDynamicState *)`
(DanglingDelegateChecker.cpp:96-100): copy, or default when null. -/
def IvarDynamicState.ofOption (o : Option IvarDynamicState) : IvarDynamicState :=
  o.getD IvarDynamicState.empty

/-- Models `IvarDynamicState::operator==` exactly as written in the source
(DanglingDelegateChecker.cpp:108-111): the body is `// TODO` followed by
`return false;` — it compares nothing and always answers `false`. -/
def ivarDynamicStateEq (_lhs _rhs : IvarDynamicState) : Bool := false

/-- The per-path `IvarMap` program-state map
(`REGISTER_MAP_WITH_PROGRAMSTATE(IvarMap, const ObjCIvarDecl *,
IvarDynamicState)`, DanglingDelegateChecker.cpp:121-123), keyed by ivar
name. -/
abbrev IvarMap := List (String × IvarDynamicState)

/-- Models `state->set<IvarMap>(key, value)`: functional update, replacing the
entry if present and appending it otherwise. -/
def ivarMapSet (m : IvarMap) (k : String) (v : IvarDynamicState) : IvarMap :=
  match m with
  | [] => [(k, v)]
  | (k', v') :: rest =>
      if k' = k then (k', v) :: rest else (k', v') :: ivarMapSet rest k v

/-- The checker's `_implFacts` cache
(`mutable std::map<std::string, ObjCImplFacts>`,
DanglingDelegateChecker.cpp:142), keyed by implementation name. -/
abbrev FactsMap := List (String × ObjCImplFacts)

/-- Models `DanglingDelegateChecker::getCurrentFacts`
(DanglingDelegateChecker.cpp:358-369).  A null interface yields no facts
(`NULL`); otherwise the facts are fetched with `_implFacts.at(intName)`,
which throws `std::out_of_range` when the name has no entry — modelled by
`Except.error`.  (The `dyn_cast<NamedDecl>` step cannot fail for an
`ObjCInterfaceDecl` and is not modelled.) -/
def getCurrentFacts (topInterface : Option String) (implFacts : FactsMap) :
    Except String (Option ObjCImplFacts) :=
  match topInterface with
  | none => .ok none
  | some intName =>
      match implFacts.lookup intName with
      | some facts => .ok (some facts)
      | none => .error "std::out_of_range thrown by std::map::at"

/-- The body of `verifyIvarDynamicStateAgainstStaticFacts` once the facts
have been retrieved (DanglingDelegateChecker.cpp:377-424): a missing
`_ivarFactsMap` entry (not an interesting ivar) is a no-op; a missing
dynamic state is replaced by the default (`emptyIds`); then
`verifyAndReportDangerousProperties` runs with the recorded dangerous set
and the path's cleared set.  (The target/observer verifications are
commented out in the source — `TODO`, lines 417-423.) -/
def verifyCore (facts : ObjCImplFacts) (ivarDecl : Option String)
    (ivarMap : IvarMap) : List Diagnostic :=
  match ivarDecl with
  | none => []
  | some ivarName =>
      match facts.ivarFactsMap.lookup ivarName with
      | none => []
      | some ivarFacts =>
          let ids := IvarDynamicState.ofOption (ivarMap.lookup ivarName)
          verifyAndReportDangerousProperties
            ivarFacts.mayStoreSelfInUnsafeProperty
            ids.assignPropertyWasCleared ivarName ""

/-- Models `DanglingDelegateChecker::verifyIvarDynamicStateAgainstStaticFacts`
(DanglingDelegateChecker.cpp:371-424): null ivar is a no-op; then the facts
are retrieved with `getCurrentFacts` (which may throw) and `verifyCore`
runs. -/
def verifyIvarDynamicStateAgainstStaticFacts (ivarDecl : Option String)
    (topInterface : Option String) (implFacts : FactsMap)
    (ivarMap : IvarMap) : Except String (List Diagnostic) :=
  match ivarDecl with
  | none => .ok []
  | some ivarName =>
      match getCurrentFacts topInterface implFacts with
      | .error e => .error e
      | .ok none => .ok []
      | .ok (some facts) => .ok (verifyCore facts (some ivarName) ivarMap)

/-- The host-AST/engine answers about a statement handled by
`checkPreStmt` (DanglingDelegateChecker.cpp:461-505): whether it is an
assignment `BinaryOperator`, whether the stripped LHS has an ObjC interface
pointer type, the ivar referenced by the LHS (`dyn_cast<ObjCIvarRefExpr>`,
by name), whether the ivar lvalue has a memory region, and the constraint
answer `isKnownToBeNil` for the previous value stored there. -/
structure PreStmtEvent where
  isAssignmentOp : Bool
  lhsIsObjCInterfacePointer : Bool
  lhsIvar : Option String
  prevValueHasRegion : Bool
  prevValueKnownNil : Bool
deriving DecidableEq, Repr

/-- The ivar-assignment tracking of `checkPreStmt`
(DanglingDelegateChecker.cpp:466-505), i.e. everything after the
`resetInitialStateIfNeeded` hack (which concerns method entry, not the
write event): in ARC mode, an assignment to an interesting ivar whose
previous value is not known to be nil runs the verification.  No branch
writes the per-path state; the returned `IvarMap` is the input one. -/
def checkPreStmtAssignTracking (arcEnabled : Bool) (ev : PreStmtEvent)
    (topInterface : Option String) (implFacts : FactsMap) (ivarMap : IvarMap) :
    Except String (IvarMap × List Diagnostic) :=
  if ¬ arcEnabled then .ok (ivarMap, [])
  else if ¬ ev.isAssignmentOp then .ok (ivarMap, [])
  else if ¬ ev.lhsIsObjCInterfacePointer then .ok (ivarMap, [])
  else
    match ev.lhsIvar with
    | none => .ok (ivarMap, [])
    | some ivarName =>
        if ev.prevValueHasRegion ∧ ev.prevValueKnownNil then .ok (ivarMap, [])
        else
          match verifyIvarDynamicStateAgainstStaticFacts (some ivarName)
              topInterface implFacts ivarMap with
          | .error e => .error e
          | .ok diags => .ok (ivarMap, diags)

/-- The host answers about one ObjC message as consumed by
`checkPostObjCMessage` (DanglingDelegateChecker.cpp:507-636):
`wasInlined` = `context.wasInlined`; `hasReceiver` =
`getInstanceReceiver() != null`; `receiverKnownNil` =
`isKnownToBeNil(getReceiverSVal())`; `receiverIsSelf` =
`isObjCSelfExpr(receiver)`; `receiverIvar` =
`matchIvarLValueExpression(*receiver)`; `firstArgIsSelf` and
`firstArgKnownNil` are the self test and the constraint answer on argument
0; `accessorOneParam`/`receiverProps` feed
`matchObjCMessageWithPropertySetter`; `runtimeDefUnknown` =
`!runtimeDefinition.getDecl() || ...->isImplicit()`. -/
structure PostMsgEvent where
  wasInlined : Bool
  hasReceiver : Bool
  receiverKnownNil : Bool
  receiverIsSelf : Bool
  receiverIvar : Option String
  selectorStr : String
  firstArgIsSelf : Bool
  firstArgKnownNil : Bool
  accessorOneParam : Bool
  receiverProps : Option (List PropertyDecl)
  runtimeDefUnknown : Bool
deriving DecidableEq, Repr

/-- Models `DanglingDelegateChecker::checkPostObjCMessage`
(DanglingDelegateChecker.cpp:507-636).  Returns the updated per-path
`IvarMap` and the diagnostics emitted; `Except.error` models the
`std::out_of_range` that `getCurrentFacts` can throw. -/
def checkPostObjCMessage (msg : PostMsgEvent) (topInterface : Option String)
    (implFacts : FactsMap) (ivarMap : IvarMap) :
    Except String (IvarMap × List Diagnostic) :=
  if msg.wasInlined then .ok (ivarMap, [])
  else if ¬ msg.hasReceiver then .ok (ivarMap, [])
  else if msg.receiverKnownNil then .ok (ivarMap, [])
  else
    match getCurrentFacts topInterface implFacts with
    | .error e => .error e
    | .ok none => .ok (ivarMap, [])
    | .ok (some facts) =>
        -- the self-property-setter branch (lines 537-570)
        match if msg.receiverIsSelf then
            matchMessageSetter msg.accessorOneParam msg.receiverProps
              msg.selectorStr
          else none with
        | some propDecl =>
            let diags :=
              if msg.runtimeDefUnknown then
                verifyCore facts propDecl.backingIvar ivarMap
              else []
            let ivarMap' :=
              match propDecl.backingIvar with
              | some ivarName =>
                  match facts.ivarFactsMap.lookup ivarName with
                  | some ivarFacts =>
                      if msg.firstArgKnownNil then
                        ivarMapSet ivarMap ivarName
                          (IvarDynamicState.fromFacts ivarFacts)
                      else ivarMap
                  | none => ivarMap
              | none => ivarMap
            .ok (ivarMap', diags)
        | none =>
            -- the interesting-ivar-receiver branch (lines 575-625)
            match msg.receiverIvar with
            | none => .ok (ivarMap, [])
            | some ivarName =>
                match facts.ivarFactsMap.lookup ivarName with
                | none => .ok (ivarMap, [])
                | some _ =>
                    if msg.selectorStr = "release" ∨
                        msg.selectorStr = "autorelease" then
                      .ok (ivarMap, verifyCore facts (some ivarName) ivarMap)
                    else
                      let ivarState :=
                        IvarDynamicState.ofOption (ivarMap.lookup ivarName)
                      match matchMessageSetter msg.accessorOneParam
                          msg.receiverProps msg.selectorStr with
                      | some propDecl =>
                          if ¬ propDecl.setterKindAssign then .ok (ivarMap, [])
                          else
                            let newState :=
                              if ¬ msg.firstArgIsSelf then
                                { ivarState with assignPropertyWasCleared :=
                                    (setInsert propDecl.name
                                      ivarState.assignPropertyWasCleared) }
                              else
                                { ivarState with assignPropertyWasCleared :=
                                    (setErase propDecl.name
                                      ivarState.assignPropertyWasCleared) }
                            .ok (ivarMapSet ivarMap ivarName newState, [])
                      | none =>
                          if msg.firstArgIsSelf ∧
                              strStartsWith "removeTarget:" msg.selectorStr then
                            .ok (ivarMapSet ivarMap ivarName
                              { ivarState with targetWasCleared := true }, [])
                          else if msg.firstArgIsSelf ∧
                              strStartsWith "removeObserver:" msg.selectorStr then
                            .ok (ivarMapSet ivarMap ivarName
                              { ivarState with observerWasCleared := true }, [])
                          else .ok (ivarMap, [])

/-- Models `DanglingDelegateChecker::checkEndFunction`
(DanglingDelegateChecker.cpp:308-356): in ARC mode, at the end of the
method whose selector is `dealloc`, verify every interesting ivar of the
current class against its final per-path cleared set (missing state =
default).  `currentSelector` is `none` when the stack frame's decl is not
an `ObjCMethodDecl`. -/
def checkEndFunction (arcEnabled : Bool) (topInterface : Option String)
    (implFacts : FactsMap) (currentSelector : Option String)
    (ivarMap : IvarMap) : Except String (List Diagnostic) :=
  if ¬ arcEnabled then .ok []
  else
    match getCurrentFacts topInterface implFacts with
    | .error e => .error e
    | .ok none => .ok []
    | .ok (some facts) =>
        if currentSelector ≠ some "dealloc" then .ok []
        else
          .ok ((facts.ivarFactsMap.map (fun e =>
            let ids := IvarDynamicState.ofOption (ivarMap.lookup e.1)
            verifyAndReportDangerousProperties
              e.2.mayStoreSelfInUnsafeProperty ids.assignPropertyWasCleared
              e.1 "ARC-generated code")).flatten)

/-- The comparison opcode of a symbolic binary expression, as tested by
`matchOpcode` (DanglingDelegateChecker.cpp:639-650): only `BO_EQ` and
`BO_NE` are recognized. -/
inductive CmpOp where
  | eq
  | ne
  | otherOp
deriving DecidableEq, Repr

/-- Models `matchOpcode` (DanglingDelegateChecker.cpp:639-650). -/
def matchOpcode (op : CmpOp) (assumption wantEquality : Bool) : Bool :=
  match op with
  | .eq => assumption = wantEquality
  | .ne => assumption ≠ wantEquality
  | .otherOp => false

/-- The memory region under a symbol, as inspected by the condition
matchers: the `DeclRegion` of the implicit parameter `self`
(lines 787-797), an `ObjCIvarRegion` (lines 911, 917), or anything else. -/
inductive Region where
  | selfParam
  | ivarRegion (ivarName : String)
  | otherRegion
deriving DecidableEq, Repr

/-- The statement attached to a `SymbolConjured`, with the host-AST answers
needed by `matchObjCMessageExprForInterestingDelegate`
(DanglingDelegateChecker.cpp:728-759) and by
`matchConditionWithInterestingPropertyEqualToNil` (lines 845-888):
`isExpr`/`isMsgExpr` reflect the `dyn_cast` steps; `exprIvarLValue` is
`matchIvarLValueExpression` on the statement viewed as an expression;
the remaining fields describe the message's receiver and getter
resolution. -/
structure ConjuredStmt where
  isExpr : Bool
  isMsgExpr : Bool
  hasReceiver : Bool
  receiverIvar : Option String
  exprIvarLValue : Option String
  accessorZeroParam : Bool
  receiverProps : Option (List PropertyDecl)
  selectorStr : String
deriving DecidableEq, Repr

/-- A leaf symbol of the constraint expression: `SymbolConjured` (with its
originating statement, possibly null), `SymbolRegionValue` over a region,
`SymbolDerived` over a region, or any other symbol kind. -/
inductive SymLeaf where
  | conjured (stmt : Option ConjuredStmt)
  | regionValue (r : Region)
  | derived (r : Region)
  | otherLeaf
deriving DecidableEq, Repr

/-- The shape of the branch condition `SVal` as decomposed by the matchers:
`SymSymExpr`, `SymIntExpr`, `IntSymExpr` (with the concrete integer), or
no symbolic expression at all. -/
inductive SymCond where
  | symSym (op : CmpOp) (lhs rhs : SymLeaf)
  | symInt (op : CmpOp) (lhs : SymLeaf) (val : Int)
  | intSym (op : CmpOp) (val : Int) (rhs : SymLeaf)
  | noSym
deriving DecidableEq, Repr

/-- Models `matchConditionWithComparison<A, B>`
(DanglingDelegateChecker.cpp:652-686), kind-agnostic part: require a
`SymSymExpr` whose opcode passes `matchOpcode`, and return its two sides
(the caller tries both orders, as the template does). -/
def matchConditionWithComparison (cond : SymCond)
    (assumption wantEquality : Bool) : Option (SymLeaf × SymLeaf) :=
  match cond with
  | .symSym op lhs rhs =>
      if matchOpcode op assumption wantEquality then some (lhs, rhs) else none
  | _ => none

/-- Models `matchConditionWithIntComparison<A>`
(DanglingDelegateChecker.cpp:688-725), kind-agnostic part: require a
`SymIntExpr` or `IntSymExpr` whose opcode passes `matchOpcode`, and return
the symbolic side and the integer. -/
def matchConditionWithIntComparison (cond : SymCond)
    (assumption wantEquality : Bool) : Option (SymLeaf × Int) :=
  match cond with
  | .symInt op lhs val =>
      if matchOpcode op assumption wantEquality then some (lhs, val) else none
  | .intSym op val rhs =>
      if matchOpcode op assumption wantEquality then some (rhs, val) else none
  | _ => none

/-- Models `matchObjCMessageExprForInterestingDelegate`
(DanglingDelegateChecker.cpp:728-759): the message must have an instance
receiver that is an interesting ivar, and be a getter of an `Assign`
property; returns the ivar and property names. -/
def matchObjCMessageExprForInterestingDelegate (c : ConjuredStmt)
    (facts : ObjCImplFacts) : Option (String × String) :=
  if ¬ c.hasReceiver then none
  else
    match c.receiverIvar with
    | none => none
    | some ivarName =>
        if (facts.ivarFactsMap.lookup ivarName).isNone then none
        else
          match matchMessageGetter c.accessorZeroParam c.receiverProps
              c.selectorStr with
          | none => none
          | some propDecl =>
              if ¬ propDecl.setterKindAssign then none
              else some (ivarName, propDecl.name)

/-- Models `matchConditionWithInterestingDelegateNotEqualToSelf`
(DanglingDelegateChecker.cpp:769-804): a `SymSymExpr` disequality (in the
taken direction) between a conjured symbol and the region value of `self`,
whose conjured statement is a getter message on an interesting ivar's
`Assign` property. -/
def matchConditionWithInterestingDelegateNotEqualToSelf (cond : SymCond)
    (assumption : Bool) (facts : ObjCImplFacts) : Option (String × String) :=
  match matchConditionWithComparison cond assumption false with
  | none => none
  | some (lhs, rhs) =>
      -- the template tries (A=lhs, B=rhs), then the switched order
      let pick : Option (Option ConjuredStmt × Region) :=
        match lhs, rhs with
        | .conjured stmt, .regionValue r => some (stmt, r)
        | .regionValue r, .conjured stmt => some (stmt, r)
        | _, _ => none
      match pick with
      | none => none
      | some (stmt, r) =>
          if r ≠ .selfParam then none
          else
            match stmt with
            | none => none
            | some c =>
                if ¬ c.isMsgExpr then none
                else matchObjCMessageExprForInterestingDelegate c facts

/-- Models `matchConditionWithInterestingDelegateEqualToNil`
(DanglingDelegateChecker.cpp:814-836): a conjured symbol compared equal (in
the taken direction) to the integer 0, whose statement is a getter message
on an interesting ivar's `Assign` property. -/
def matchConditionWithInterestingDelegateEqualToNil (cond : SymCond)
    (assumption : Bool) (facts : ObjCImplFacts) : Option (String × String) :=
  match matchConditionWithIntComparison cond assumption true with
  | none => none
  | some (leaf, val) =>
      match leaf with
      | .conjured stmt =>
          if val ≠ 0 then none
          else
            match stmt with
            | none => none
            | some c =>
                if ¬ c.isMsgExpr then none
                else matchObjCMessageExprForInterestingDelegate c facts
      | _ => none

/-- Models `matchConditionWithInterestingPropertyEqualToNil`
(DanglingDelegateChecker.cpp:845-888): a conjured symbol compared equal to
0 whose statement, viewed as an expression, is either an ivar lvalue or a
property-getter message backed by an ivar; the ivar must be interesting. -/
def matchConditionWithInterestingPropertyEqualToNil (cond : SymCond)
    (assumption : Bool) (facts : ObjCImplFacts) : Option String :=
  match matchConditionWithIntComparison cond assumption true with
  | none => none
  | some (leaf, val) =>
      match leaf with
      | .conjured stmt =>
          if val ≠ 0 then none
          else
            match stmt with
            | none => none
            | some c =>
                if ¬ c.isExpr then none
                else
                  let ivarOpt :=
                    match c.exprIvarLValue with
                    | some ivarName => some ivarName
                    | none =>
                        if ¬ c.isMsgExpr then none
                        else
                          match matchMessageGetter c.accessorZeroParam
                              c.receiverProps c.selectorStr with
                          | none => none
                          | some propDecl => propDecl.backingIvar
                  match ivarOpt with
                  | none => none
                  | some ivarName =>
                      if (facts.ivarFactsMap.lookup ivarName).isNone then none
                      else some ivarName
      | _ => none

/-- Models `matchConditionWithInterestingIvarEqualToNil`
(DanglingDelegateChecker.cpp:899-931): a `SymbolRegionValue` or
`SymbolDerived` over an `ObjCIvarRegion`, compared equal to 0; the ivar
must be interesting. -/
def matchConditionWithInterestingIvarEqualToNil (cond : SymCond)
    (assumption : Bool) (facts : ObjCImplFacts) : Option String :=
  match matchConditionWithIntComparison cond assumption true with
  | none => none
  | some (leaf, val) =>
      let regOpt :=
        match leaf with
        | .regionValue (.ivarRegion ivarName) => some ivarName
        | .derived (.ivarRegion ivarName) => some ivarName
        | _ => none
      match regOpt with
      | none => none
      | some ivarName =>
          if val ≠ 0 then none
          else if (facts.ivarFactsMap.lookup ivarName).isNone then none
          else some ivarName

/-- Models `DanglingDelegateChecker::evalAssume`
(DanglingDelegateChecker.cpp:939-976).  The current interface comes from
the `CurrentObjCInterfaceDecl` trait; `getCurrentFacts` may throw.  On a
delegate-shaped comparison the matched property alone is inserted into the
ivar's cleared set; on an ivar/property-nil comparison the ivar's state is
replaced by the all-cleared `IvarDynamicState(ivarFacts)` (the source reads
the facts back with `_ivarFactsMap.at`, which cannot fail there because the
matcher checked the entry exists; the model still mirrors the throwing
lookup). -/
def evalAssume (currentInterface : Option String) (implFacts : FactsMap)
    (cond : SymCond) (assumption : Bool) (state : IvarMap) :
    Except String IvarMap :=
  match getCurrentFacts currentInterface implFacts with
  | .error e => .error e
  | .ok none => .ok state
  | .ok (some facts) =>
      match matchConditionWithInterestingDelegateNotEqualToSelf cond assumption
          facts <|>
        matchConditionWithInterestingDelegateEqualToNil cond assumption facts with
      | some (ivarName, propName) =>
          let ivarState := IvarDynamicState.ofOption (state.lookup ivarName)
          .ok (ivarMapSet state ivarName
            { ivarState with assignPropertyWasCleared :=
                (setInsert propName ivarState.assignPropertyWasCleared) })
      | none =>
          match matchConditionWithInterestingPropertyEqualToNil cond assumption
              facts <|>
            matchConditionWithInterestingIvarEqualToNil cond assumption facts with
          | some ivarName =>
              match facts.ivarFactsMap.lookup ivarName with
              | some ivarFacts =>
                  .ok (ivarMapSet state ivarName
                    (IvarDynamicState.fromFacts ivarFacts))
              | none => .error "std::out_of_range thrown by std::map::at"
          | none => .ok state

/-- The pseudo-init prefix list exactly as the specification words it
("`setup`, `load`, `viewdidload`, and underscore-prefixed variants") — a
spec-side definition kept to compare against `pseudoInitPrefixes` from the
source, which additionally contains `"_init"`. -/
def specClaimedPseudoInitPrefixList : List String :=
  ["setup", "load", "viewdidload", "_setup", "_load", "_viewdidload"]

/-- The invariant claimed for `_ivarFactsMap` entries: at least one of the
three signals has been observed. -/
def ivarFactsHasSignal (f : IvarFacts) : Prop :=
  f.mayStoreSelfInUnsafeProperty ≠ [] ∨ f.mayTargetSelf = true ∨
    f.mayObserveSelf = true

/-- Overwrite the `_mayTargetSelf`/`_mayObserveSelf` flags of one
`IvarFacts` record (used to express that these flags never influence
diagnostics). -/
def setIvarFactsFlags (b1 b2 : Bool) (f : IvarFacts) : IvarFacts :=
  { f with mayTargetSelf := b1, mayObserveSelf := b2 }

/-- Overwrite the target/observer fact flags of every entry of a class's
fact table. -/
def setFactsFlags (b1 b2 : Bool) (facts : ObjCImplFacts) : ObjCImplFacts :=
  { facts with ivarFactsMap :=
      facts.ivarFactsMap.map (fun e => (e.1, setIvarFactsFlags b1 b2 e.2)) }

/-- Overwrite the `_targetWasCleared`/`_observerWasCleared` state flags of
every entry of a per-path `IvarMap`. -/
def setStateFlags (b3 b4 : Bool) (m : IvarMap) : IvarMap :=
  m.map (fun e =>
    (e.1, { e.2 with targetWasCleared := b3, observerWasCleared := b4 }))

/-- The message `[_bar setDelegate:self]` (receiver: the ivar `_bar` whose
class declares an `assign` property `delegate`), as seen by the
fact-finder. -/
def barDelegateSelfMsg : MsgInfo :=
  { hasReceiver := true, firstArgIsSelf := true, selectorStr := "setDelegate:",
    receiverIvar := some "_bar", receiverSingleton := "",
    accessorOneParam := true,
    receiverProps := some [{ name := "delegate", setterKindAssign := true,
                             backingIvar := none }] }

/-- A method body consisting of the single statement
`[_bar setDelegate:self];`. -/
def barDelegateSelfBody : Stmt := .node (some barDelegateSelfMsg) .nil

/-- Scenario B of the specification: a class whose only method is the
pseudo-init `setupBar`, whose body stores self into `_bar`'s `delegate`,
with no `dealloc`. -/
def scenarioBClass : List MethodDecl :=
  [{ name := "setupBar", body := some barDelegateSelfBody }]

/-- The facts the fact-finder computes for scenario B. -/
def scenarioBFacts : ObjCImplFacts :=
  runFactFinder scenarioBClass ObjCImplFacts.empty

/-- The conjured-symbol statement `[_x delegate]` — a getter of the
`assign` property `delegate` on the interesting ivar `_x` — used in the
branch condition `_x.delegate != self`. -/
def xDelegateGetter : ConjuredStmt :=
  { isExpr := true, isMsgExpr := true, hasReceiver := true,
    receiverIvar := some "_x", exprIvarLValue := none,
    accessorZeroParam := true,
    receiverProps := some [{ name := "delegate", setterKindAssign := true,
                             backingIvar := some "_x" }],
    selectorStr := "delegate" }

/-- Facts for a class whose ivar `_x` has two recorded unsafe properties,
`dataSource` and `delegate`. -/
def twoPropFacts : ObjCImplFacts :=
  { ivarFactsMap := [("_x",
      { mayStoreSelfInUnsafeProperty := ["dataSource", "delegate"],
        mayTargetSelf := false, mayObserveSelf := false })],
    sharedObserverFactsMap := [], pseudoInitMethods := [],
    hasDealloc := true }

/-- The branch condition `_x.delegate != self` as a symbolic comparison:
a conjured symbol for `[_x delegate]` compared `!=` to the region value of
`self`. -/
def xDelegateNeSelfCond : SymCond :=
  .symSym .ne (.conjured (some xDelegateGetter)) (.regionValue .selfParam)

/-- A post-call event `[_bar setDelegate:self]` as seen by
`checkPostObjCMessage` (receiver is the interesting ivar `_bar`; the sole
argument is self). -/
def barSetDelegateSelfEvent : PostMsgEvent :=
  { wasInlined := false, hasReceiver := true, receiverKnownNil := false,
    receiverIsSelf := false, receiverIvar := some "_bar",
    selectorStr := "setDelegate:", firstArgIsSelf := true,
    firstArgKnownNil := false, accessorOneParam := true,
    receiverProps := some [{ name := "delegate", setterKindAssign := true,
                             backingIvar := none }],
    runtimeDefUnknown := false }

/-- The same event with a non-self argument (`[_bar setDelegate:nil]`). -/
def barSetDelegateNilEvent : PostMsgEvent :=
  { barSetDelegateSelfEvent with firstArgIsSelf := false,
                                 firstArgKnownNil := true }

/-- Facts for a class whose ivar `_bar` has the single recorded unsafe
property `delegate`. -/
def barFacts : ObjCImplFacts :=
  { ivarFactsMap := [("_bar",
      { mayStoreSelfInUnsafeProperty := ["delegate"],
        mayTargetSelf := false, mayObserveSelf := false })],
    sharedObserverFactsMap := [], pseudoInitMethods := [],
    hasDealloc := true }

/-- A direct ivar assignment event whose previous value is statically known
to be nil. -/
def knownNilPrevWriteEvent : PreStmtEvent :=
  { isAssignmentOp := true, lhsIsObjCInterfacePointer := true,
    lhsIvar := some "_bar", prevValueHasRegion := true,
    prevValueKnownNil := true }

/-! ### Helper lemmas about the set and map embeddings -/

theorem mem_setInsert {x y : String} {s : StringSet} :
    x ∈ setInsert y s ↔ x = y ∨ x ∈ s := by
  unfold setInsert
  split
  · rename_i hy
    constructor
    · exact Or.inr
    · rintro (rfl | h) <;> assumption
  · simp [or_comm]

theorem setInsert_ne_nil (y : String) (s : StringSet) : setInsert y s ≠ [] := by
  unfold setInsert
  split
  · rename_i hy
    intro h
    rw [h] at hy
    exact absurd hy (List.not_mem_nil y)
  · simp

theorem mem_setErase {x y : String} {s : StringSet} :
    x ∈ setErase y s ↔ x ∈ s ∧ x ≠ y := by
  unfold setErase
  simp [List.mem_filter]

theorem not_mem_setErase_self (y : String) (s : StringSet) :
    y ∉ setErase y s := by
  rw [mem_setErase]
  simp

theorem lookup_ivarMapSet (m : IvarMap) (k k' : String) (v : IvarDynamicState) :
    (ivarMapSet m k v).lookup k' = if k' = k then some v else m.lookup k' := by
  induction m with
  | nil =>
      by_cases h : k' = k
      · simp [ivarMapSet, List.lookup, beq_iff_eq.mpr h, h]
      · simp [ivarMapSet, List.lookup, beq_eq_false_iff_ne.mpr h, h]
  | cons e rest ih =>
      rcases e with ⟨ek, ev⟩
      by_cases hek : ek = k
      · subst hek
        by_cases h : k' = ek
        · simp [ivarMapSet, List.lookup, beq_iff_eq.mpr h, h]
        · simp [ivarMapSet, List.lookup, beq_eq_false_iff_ne.mpr h, h]
      · by_cases h : k' = ek
        · have hne : ¬ k' = k := fun hkk => hek (h.symm.trans hkk)
          simp [ivarMapSet, if_neg hek, List.lookup, beq_iff_eq.mpr h, hne]
        · simp [ivarMapSet, if_neg hek, List.lookup,
                beq_eq_false_iff_ne.mpr h, ih]

theorem mem_mapUpdate {e : String × IvarFacts} {m : List (String × IvarFacts)}
    {k : String} {f : IvarFacts → IvarFacts} (h : e ∈ mapUpdate m k f) :
    e ∈ m ∨ ∃ v, e = (k, f v) := by
  induction m with
  | nil =>
      unfold mapUpdate at h
      simp at h
      exact Or.inr ⟨IvarFacts.empty, h⟩
  | cons hd rest ih =>
      unfold mapUpdate at h
      rcases hd with ⟨hk, hv⟩
      split at h
      · rename_i heq
        rcases List.mem_cons.mp h with h1 | h1
        · subst heq
          exact Or.inr ⟨hv, h1⟩
        · exact Or.inl (List.mem_cons_of_mem _ h1)
      · rcases List.mem_cons.mp h with h1 | h1
        · exact Or.inl (List.mem_cons.mpr (Or.inl h1))
        · rcases ih h1 with h2 | h2
          · exact Or.inl (List.mem_cons_of_mem _ h2)
          · exact Or.inr h2

theorem lookup_mapVal {α β γ : Type} [BEq α] (g : β → γ)
    (m : List (α × β)) (k : α) :
    (m.map (fun e => (e.1, g e.2))).lookup k = (m.lookup k).map g := by
  induction m with
  | nil => simp [List.lookup]
  | cons e rest ih =>
      rcases e with ⟨ek, ev⟩
      simp only [List.map, List.lookup]
      cases h : k == ek <;> simp [h, ih]


/-! ### The fact-finder's body walk: projections, congruence, invariant -/

theorem factStep_pseudo (n : String) (i : MsgInfo) (f : ObjCImplFacts) :
    (factStep n i f).pseudoInitMethods = f.pseudoInitMethods := by
  unfold factStep
  unfold ObjCImplFacts.ivarMayStoreSelfInUnsafeProperty ObjCImplFacts.ivarMayTargetSelf
    ObjCImplFacts.ivarMayObserveSelf ObjCImplFacts.sharedObjectMayObserveSelfInMethod
  repeat' split
  all_goals rfl

mutual
theorem visitStmt_pseudo (n : String) (s : Stmt) (f : ObjCImplFacts) :
    (visitStmt n s f).pseudoInitMethods = f.pseudoInitMethods := by
  match s with
  | .node none children =>
      rw [visitStmt]
      exact visitStmtList_pseudo n children f
  | .node (some i) children =>
      rw [visitStmt, visitStmtList_pseudo, factStep_pseudo]
theorem visitStmtList_pseudo (n : String) (l : StmtList) (f : ObjCImplFacts) :
    (visitStmtList n l f).pseudoInitMethods = f.pseudoInitMethods := by
  match l with
  | .nil => rw [visitStmtList]
  | .cons s rest =>
      rw [visitStmtList, visitStmtList_pseudo, visitStmt_pseudo]
end

theorem factStep_ivarCongr (n : String) (i : MsgInfo) (f g : ObjCImplFacts)
    (h : f.ivarFactsMap = g.ivarFactsMap) :
    (factStep n i f).ivarFactsMap = (factStep n i g).ivarFactsMap := by
  unfold factStep
  unfold ObjCImplFacts.ivarMayStoreSelfInUnsafeProperty ObjCImplFacts.ivarMayTargetSelf
    ObjCImplFacts.ivarMayObserveSelf ObjCImplFacts.sharedObjectMayObserveSelfInMethod
  repeat' split
  all_goals simp [h]

mutual
theorem visitStmt_ivarCongr (n : String) (s : Stmt) (f g : ObjCImplFacts)
    (h : f.ivarFactsMap = g.ivarFactsMap) :
    (visitStmt n s f).ivarFactsMap = (visitStmt n s g).ivarFactsMap := by
  match s with
  | .node none children =>
      rw [visitStmt, visitStmt]
      exact visitStmtList_ivarCongr n children f g h
  | .node (some i) children =>
      rw [visitStmt, visitStmt]
      exact visitStmtList_ivarCongr n children _ _ (factStep_ivarCongr n i f g h)
theorem visitStmtList_ivarCongr (n : String) (l : StmtList) (f g : ObjCImplFacts)
    (h : f.ivarFactsMap = g.ivarFactsMap) :
    (visitStmtList n l f).ivarFactsMap = (visitStmtList n l g).ivarFactsMap := by
  match l with
  | .nil => rw [visitStmtList, visitStmtList]; exact h
  | .cons s rest =>
      rw [visitStmtList, visitStmtList]
      exact visitStmtList_ivarCongr n rest _ _ (visitStmt_ivarCongr n s f g h)
end

theorem visitMethodDecl_ivar (n : String) (f : ObjCImplFacts) :
    (visitMethodDecl n f).ivarFactsMap = f.ivarFactsMap := by
  unfold visitMethodDecl
  repeat' split
  all_goals rfl

theorem mem_visitMethodDecl_pseudo {x n : String} {f : ObjCImplFacts} :
    x ∈ (visitMethodDecl n f).pseudoInitMethods ↔
      x ∈ f.pseudoInitMethods ∨
        (x = n ∧ (isInitFamily n = true ∨ matchesPseudoInitName n = true)) := by
  unfold visitMethodDecl
  split_ifs with h1 h2 h3 h4 <;> subst_vars <;>
    simp_all [mem_setInsert] <;> tauto

theorem runFactFinderMethod_pseudo {x : String} {f : ObjCImplFacts}
    {m : MethodDecl} :
    x ∈ (runFactFinderMethod f m).pseudoInitMethods ↔
      x ∈ f.pseudoInitMethods ∨
        (x = m.name ∧ (isInitFamily m.name = true ∨
          matchesPseudoInitName m.name = true)) := by
  unfold runFactFinderMethod
  cases hb : m.body with
  | none => simp only [mem_visitMethodDecl_pseudo]
  | some b => rw [visitStmt_pseudo, mem_visitMethodDecl_pseudo]

theorem runFactFinder_pseudo {x : String} {f : ObjCImplFacts}
    {ms : List MethodDecl} :
    x ∈ (runFactFinder ms f).pseudoInitMethods ↔
      x ∈ f.pseudoInitMethods ∨
        ∃ m ∈ ms, x = m.name ∧ (isInitFamily m.name = true ∨
          matchesPseudoInitName m.name = true) := by
  induction ms generalizing f with
  | nil => simp [runFactFinder]
  | cons m rest ih =>
      show x ∈ (runFactFinder rest (runFactFinderMethod f m)).pseudoInitMethods ↔ _
      rw [ih, runFactFinderMethod_pseudo]
      simp only [List.mem_cons]
      constructor
      · rintro ((h | h) | ⟨m', hm', h⟩)
        · exact Or.inl h
        · exact Or.inr ⟨m, Or.inl rfl, h⟩
        · exact Or.inr ⟨m', Or.inr hm', h⟩
      · rintro (h | ⟨m', (rfl | hm'), h⟩)
        · exact Or.inl (Or.inl h)
        · exact Or.inl (Or.inr h)
        · exact Or.inr ⟨m', hm', h⟩


theorem signal_mapUpdate {m : List (String × IvarFacts)} {k : String}
    {f : IvarFacts → IvarFacts}
    (hm : ∀ e ∈ m, ivarFactsHasSignal e.2)
    (hf : ∀ v, ivarFactsHasSignal (f v)) :
    ∀ e ∈ mapUpdate m k f, ivarFactsHasSignal e.2 := by
  intro e he
  rcases mem_mapUpdate he with h | ⟨v, rfl⟩
  · exact hm e h
  · exact hf v

theorem factStep_signal (n : String) (i : MsgInfo) (f : ObjCImplFacts)
    (h : ∀ e ∈ f.ivarFactsMap, ivarFactsHasSignal e.2) :
    ∀ e ∈ (factStep n i f).ivarFactsMap, ivarFactsHasSignal e.2 := by
  unfold factStep ObjCImplFacts.ivarMayStoreSelfInUnsafeProperty
    ObjCImplFacts.ivarMayTargetSelf ObjCImplFacts.ivarMayObserveSelf
    ObjCImplFacts.sharedObjectMayObserveSelfInMethod
  repeat' split
  all_goals
    first
      | exact h
      | exact signal_mapUpdate h (fun v => Or.inl (setInsert_ne_nil _ _))
      | exact signal_mapUpdate h (fun v => Or.inr (Or.inl rfl))
      | exact signal_mapUpdate h (fun v => Or.inr (Or.inr rfl))

mutual
theorem visitStmt_signal (n : String) (s : Stmt) (f : ObjCImplFacts)
    (h : ∀ e ∈ f.ivarFactsMap, ivarFactsHasSignal e.2) :
    ∀ e ∈ (visitStmt n s f).ivarFactsMap, ivarFactsHasSignal e.2 := by
  match s with
  | .node none children =>
      rw [visitStmt]
      exact visitStmtList_signal n children f h
  | .node (some i) children =>
      rw [visitStmt]
      exact visitStmtList_signal n children _ (factStep_signal n i f h)
theorem visitStmtList_signal (n : String) (l : StmtList) (f : ObjCImplFacts)
    (h : ∀ e ∈ f.ivarFactsMap, ivarFactsHasSignal e.2) :
    ∀ e ∈ (visitStmtList n l f).ivarFactsMap, ivarFactsHasSignal e.2 := by
  match l with
  | .nil => rw [visitStmtList]; exact h
  | .cons s rest =>
      rw [visitStmtList]
      exact visitStmtList_signal n rest _ (visitStmt_signal n s f h)
end

theorem runFactFinder_signal (ms : List MethodDecl) (f : ObjCImplFacts)
    (h : ∀ e ∈ f.ivarFactsMap, ivarFactsHasSignal e.2) :
    ∀ e ∈ (runFactFinder ms f).ivarFactsMap, ivarFactsHasSignal e.2 := by
  induction ms generalizing f with
  | nil => exact h
  | cons m rest ih =>
      show ∀ e ∈ (runFactFinder rest (runFactFinderMethod f m)).ivarFactsMap, _
      refine ih _ ?_
      unfold runFactFinderMethod
      cases hb : m.body with
      | none =>
          intro e he
          rw [visitMethodDecl_ivar] at he
          exact h e he
      | some b =>
          refine visitStmt_signal m.name b _ ?_
          intro e he
          rw [visitMethodDecl_ivar] at he
          exact h e he


/-- Claim C1 (code bug): a lookup whose class interface is known but whose
name has no entry in the facts cache is not a silent no-op — `map::at`
throws, so `getCurrentFacts`, and with it the verification and the
end-of-dealloc check, aborts with `std::out_of_range` instead of treating
the missing entry as an empty value. -/
theorem claim1_missing_class_facts_throw :
    getCurrentFacts (some "Foo") [] =
      Except.error "std::out_of_range thrown by std::map::at" ∧
    verifyIvarDynamicStateAgainstStaticFacts (some "_bar") (some "Foo") [] [] =
      Except.error "std::out_of_range thrown by std::map::at" ∧
    checkEndFunction true (some "Foo") [] (some "dealloc") [] =
      Except.error "std::out_of_range thrown by std::map::at" :=
  ⟨rfl, rfl, rfl⟩

/-- Claim C2, counterexample: in scenario B (single pseudo-init method
`setupBar` whose body is `[_bar setDelegate:self]`, no `dealloc`), the
fact-finder DOES record the unsafe-property fact for `_bar`, and the
class-wide ARC scan emits one diagnostic — not zero, as the claim states. -/
theorem claim2_counterexample :
    scenarioBFacts.ivarFactsMap.lookup "_bar" =
      some { mayStoreSelfInUnsafeProperty := ["delegate"],
             mayTargetSelf := false, mayObserveSelf := false } ∧
    "setupBar" ∈ scenarioBFacts.pseudoInitMethods ∧
    matchesPseudoInitName "setupBar" = true ∧
    checkASTDeclScan scenarioBFacts true =
      [{ ivarName := "_bar", propName := "delegate",
         declName := "ARC-generated dealloc" }] := by
  refine ⟨rfl, by decide, by decide, rfl⟩

/-- Claim C2 (amended): pseudo-init methods are added to
`pseudoInitMethods`, but their bodies still undergo fact extraction exactly
like any other body — the resulting ivar facts do not depend on the
classification — so a class whose only self-storing call sits in a
pseudo-init method still records the fact and, lacking `dealloc` under
ARC, yields one class-level diagnostic rather than zero. -/
theorem claim2_amended :
    (∀ (n : String) (f : ObjCImplFacts),
        isInitFamily n = true ∨ matchesPseudoInitName n = true →
        n ∈ (visitMethodDecl n f).pseudoInitMethods) ∧
    (∀ (f : ObjCImplFacts) (m : MethodDecl),
        (runFactFinderMethod f m).ivarFactsMap =
          (match m.body with
           | none => f
           | some b => visitStmt m.name b f).ivarFactsMap) ∧
    checkASTDeclScan scenarioBFacts true =
      [{ ivarName := "_bar", propName := "delegate",
         declName := "ARC-generated dealloc" }] := by
  refine ⟨?_, ?_, rfl⟩
  · intro n f h
    exact mem_visitMethodDecl_pseudo.mpr (Or.inr ⟨rfl, h⟩)
  · intro f m
    unfold runFactFinderMethod
    cases hb : m.body with
    | none => exact visitMethodDecl_ivar m.name f
    | some b =>
        exact visitStmt_ivarCongr m.name b _ _ (visitMethodDecl_ivar m.name f)

/-- Witness for C2 (amended), at the concrete pseudo-init method name
`setupBar`. -/
theorem claim2_witness :
    "setupBar" ∈ (visitMethodDecl "setupBar" ObjCImplFacts.empty).pseudoInitMethods :=
  claim2_amended.1 "setupBar" ObjCImplFacts.empty (Or.inr (by decide))

/-- Claim C3, counterexample: the method name `_initialize` is neither an
init-family selector nor a match of the prefix list as the specification
states it (`setup`, `load`, `viewdidload` and underscore variants), yet the
fact-finder adds it to `pseudoInitMethods` — the source list also contains
the prefix `"_init"`. -/
theorem claim3_counterexample :
    "_initialize" ∈ (runFactFinder [{ name := "_initialize", body := none }]
        ObjCImplFacts.empty).pseudoInitMethods ∧
    isInitFamily "_initialize" = false ∧
    specClaimedPseudoInitPrefixList.all
      (fun p => !(startswithLower p "_initialize")) = true ∧
    startswithLower "_init" "_initialize" = true := by
  refine ⟨by decide, by decide, by decide, by decide⟩

/-- Claim C3 (amended): `pseudoInitMethods` contains exactly the names of
the class's methods that are init-family selectors or match,
case-insensitively, a prefix from the source's fixed list — which is
`_init`, `setup`, `_setup`, `load`, `_load`, `viewdidload`,
`_viewdidload` — and no other name. -/
theorem claim3_amended (ms : List MethodDecl) (x : String) :
    x ∈ (runFactFinder ms ObjCImplFacts.empty).pseudoInitMethods ↔
      (∃ m ∈ ms, m.name = x) ∧
        (isInitFamily x = true ∨ matchesPseudoInitName x = true) := by
  rw [runFactFinder_pseudo]
  constructor
  · rintro (h | ⟨m, hm, rfl, h⟩)
    · exact absurd h (List.not_mem_nil x)
    · exact ⟨⟨m, hm, rfl⟩, h⟩
  · rintro ⟨⟨m, hm, rfl⟩, h⟩
    exact Or.inr ⟨m, hm, rfl, h⟩

/-- Claim C4 (code bug): `IvarDynamicState::operator==` is a stubbed
`return false` (`// TODO` in the source), so two structurally equal states
— even the very same default state — compare unequal; equality is not
reflexive and never holds. -/
theorem claim4_state_equality_always_false :
    ivarDynamicStateEq IvarDynamicState.empty IvarDynamicState.empty = false ∧
    (∀ a b : IvarDynamicState, ivarDynamicStateEq a b = false) :=
  ⟨rfl, fun _ _ => rfl⟩

/-- Claim C7: after the fact-finder runs over a class's methods, every
entry of the ivar facts map carries at least one of the three signals —
starting from any table already satisfying the invariant (in particular
the default-constructed empty one), no empty/default record is ever
stored. -/
theorem claim7_fieldFacts_signal_invariant (ms : List MethodDecl)
    (f : ObjCImplFacts)
    (h : ∀ e ∈ f.ivarFactsMap, ivarFactsHasSignal e.2) :
    ∀ e ∈ (runFactFinder ms f).ivarFactsMap, ivarFactsHasSignal e.2 :=
  runFactFinder_signal ms f h

/-- Witness for C7: the invariant holds of the concrete entry the
fact-finder produces for scenario B. -/
theorem claim7_witness :
    ivarFactsHasSignal (⟨["delegate"], false, false⟩ : IvarFacts) :=
  claim7_fieldFacts_signal_invariant scenarioBClass ObjCImplFacts.empty
    (by intro e he; exact absurd he (List.not_mem_nil e))
    ("_bar", (⟨["delegate"], false, false⟩ : IvarFacts))
    (by decide)


theorem matchMessageSetter_propName {a : Bool} {props : Option (List PropertyDecl)}
    {sel : String} {p : PropertyDecl}
    (h : matchMessageSetter a props sel = some p) :
    getPropertyNameFromSetterSelector sel ≠ "" := by
  unfold matchMessageSetter at h
  split at h
  · exact Option.noConfusion h
  · cases props with
    | none => exact Option.noConfusion h
    | some l =>
        simp only at h
        split at h
        · exact Option.noConfusion h
        · assumption

theorem checkPost_assign_setter_eq
    (msg : PostMsgEvent) (topInterface : Option String) (implFacts : FactsMap)
    (ivarMap : IvarMap) (facts : ObjCImplFacts) (ivarName : String)
    (ifacts : IvarFacts) (propDecl : PropertyDecl)
    (h1 : msg.wasInlined = false) (h2 : msg.hasReceiver = true)
    (h3 : msg.receiverKnownNil = false)
    (h4 : getCurrentFacts topInterface implFacts = .ok (some facts))
    (h5 : msg.receiverIsSelf = false)
    (h6 : msg.receiverIvar = some ivarName)
    (h7 : facts.ivarFactsMap.lookup ivarName = some ifacts)
    (h8 : matchMessageSetter msg.accessorOneParam msg.receiverProps
          msg.selectorStr = some propDecl)
    (h9 : propDecl.setterKindAssign = true)
    (hsel : ¬ (msg.selectorStr = "release" ∨ msg.selectorStr = "autorelease")) :
    checkPostObjCMessage msg topInterface implFacts ivarMap =
      .ok (ivarMapSet ivarMap ivarName
        { IvarDynamicState.ofOption (ivarMap.lookup ivarName) with
            assignPropertyWasCleared :=
              (if msg.firstArgIsSelf then
                setErase propDecl.name (IvarDynamicState.ofOption
                  (ivarMap.lookup ivarName)).assignPropertyWasCleared
               else
                setInsert propDecl.name (IvarDynamicState.ofOption
                  (ivarMap.lookup ivarName)).assignPropertyWasCleared) }, []) := by
  unfold checkPostObjCMessage
  simp only [h1, h2, h3, h4, h5, h6, h7, h8, h9, if_neg hsel,
    Bool.false_eq_true, Bool.not_true, if_false, if_true, ite_false, ite_true,
    Bool.not_false]
  cases hf : msg.firstArgIsSelf <;> simp

/-- Claim C5: a post-call event whose receiver is an interesting ivar and
which matches an `Assign` property setter updates that ivar's cleared set —
removing the property when the sole argument is self, adding it otherwise —
and emits nothing; consequently, right after a set-to-self the property is
not in the cleared set, whatever was cleared before (in particular after a
clear-then-set-to-self sequence). -/
theorem claim5_assign_setter_transition
    (msg : PostMsgEvent) (topInterface : Option String) (implFacts : FactsMap)
    (ivarMap : IvarMap) (facts : ObjCImplFacts) (ivarName : String)
    (ifacts : IvarFacts) (propDecl : PropertyDecl)
    (h1 : msg.wasInlined = false) (h2 : msg.hasReceiver = true)
    (h3 : msg.receiverKnownNil = false)
    (h4 : getCurrentFacts topInterface implFacts = .ok (some facts))
    (h5 : msg.receiverIsSelf = false)
    (h6 : msg.receiverIvar = some ivarName)
    (h7 : facts.ivarFactsMap.lookup ivarName = some ifacts)
    (h8 : matchMessageSetter msg.accessorOneParam msg.receiverProps
          msg.selectorStr = some propDecl)
    (h9 : propDecl.setterKindAssign = true) :
    (checkPostObjCMessage msg topInterface implFacts ivarMap =
      .ok (ivarMapSet ivarMap ivarName
        { IvarDynamicState.ofOption (ivarMap.lookup ivarName) with
            assignPropertyWasCleared :=
              (if msg.firstArgIsSelf then
                setErase propDecl.name (IvarDynamicState.ofOption
                  (ivarMap.lookup ivarName)).assignPropertyWasCleared
               else
                setInsert propDecl.name (IvarDynamicState.ofOption
                  (ivarMap.lookup ivarName)).assignPropertyWasCleared) }, [])) ∧
    (msg.firstArgIsSelf = true →
      ∀ st diags,
        checkPostObjCMessage msg topInterface implFacts ivarMap =
          .ok (st, diags) →
        propDecl.name ∉
          (IvarDynamicState.ofOption
            (st.lookup ivarName)).assignPropertyWasCleared) := by
  have hprop := matchMessageSetter_propName h8
  have hsel : ¬ (msg.selectorStr = "release" ∨ msg.selectorStr = "autorelease") := by
    rintro (hc | hc) <;> rw [hc] at hprop <;> exact hprop (by decide)
  have hmain := checkPost_assign_setter_eq msg topInterface implFacts ivarMap
    facts ivarName ifacts propDecl h1 h2 h3 h4 h5 h6 h7 h8 h9 hsel
  refine ⟨hmain, ?_⟩
  intro hself st diags heq
  rw [hmain] at heq
  injection heq with hpair
  have hst : st = ivarMapSet ivarMap ivarName
      { IvarDynamicState.ofOption (ivarMap.lookup ivarName) with
          assignPropertyWasCleared :=
            (if msg.firstArgIsSelf then
              setErase propDecl.name (IvarDynamicState.ofOption
                (ivarMap.lookup ivarName)).assignPropertyWasCleared
             else
              setInsert propDecl.name (IvarDynamicState.ofOption
                (ivarMap.lookup ivarName)).assignPropertyWasCleared) } :=
    (congrArg Prod.fst hpair).symm
  subst hst
  rw [lookup_ivarMapSet]
  simp only [if_pos rfl, IvarDynamicState.ofOption, Option.getD_some, hself,
    if_true, ite_true]
  exact not_mem_setErase_self _ _

/-- Witness for C5: the concrete event `[_bar setDelegate:self]` (receiver:
interesting ivar `_bar`, sole argument self) erases `delegate` from the
(empty) cleared set, leaving it uncleared. -/
theorem claim5_witness :
    checkPostObjCMessage barSetDelegateSelfEvent (some "Foo")
      [("Foo", barFacts)] [] = .ok ([("_bar", IvarDynamicState.empty)], []) := by
  have h := (claim5_assign_setter_transition barSetDelegateSelfEvent
    (some "Foo") [("Foo", barFacts)] [] barFacts "_bar"
    (⟨["delegate"], false, false⟩ : IvarFacts)
    (⟨"delegate", true, none⟩ : PropertyDecl)
    rfl rfl rfl rfl rfl rfl rfl (by decide) rfl).1
  rw [h]
  rfl

/-- Claim C9: a direct assignment to an ivar triggers verification only
when the previous value is not statically known nil (a known-nil previous
value makes the whole event a silent no-op), and no branch of the
assignment handling — the verification included — changes the per-path
`IvarMap`. -/
theorem claim9_field_write_frame (arcEnabled : Bool) (ev : PreStmtEvent)
    (topInterface : Option String) (implFacts : FactsMap) (ivarMap : IvarMap) :
    (∀ out, checkPreStmtAssignTracking arcEnabled ev topInterface implFacts
        ivarMap = .ok out → out.1 = ivarMap) ∧
    (ev.prevValueHasRegion = true → ev.prevValueKnownNil = true →
      checkPreStmtAssignTracking arcEnabled ev topInterface implFacts ivarMap =
        .ok (ivarMap, [])) := by
  constructor
  · intro out h
    unfold checkPreStmtAssignTracking at h
    repeat' split at h
    all_goals
      first
        | (injection h with h; exact congrArg Prod.fst h.symm)
        | exact Except.noConfusion h
  · intro h1 h2
    unfold checkPreStmtAssignTracking
    repeat' split
    all_goals simp_all

/-- Witness for C9, at a concrete known-nil-previous-value assignment. -/
theorem claim9_witness :
    checkPreStmtAssignTracking true knownNilPrevWriteEvent (some "Foo")
      [("Foo", barFacts)] [] = .ok ([], []) :=
  (claim9_field_write_frame true knownNilPrevWriteEvent (some "Foo")
    [("Foo", barFacts)] []).2 (by decide) (by decide)


theorem mem_verifyAndReport {d : Diagnostic} {dang clr : StringSet}
    {iv dn : String} :
    d ∈ verifyAndReportDangerousProperties dang clr iv dn ↔
      d.ivarName = iv ∧ d.declName = dn ∧ d.propName ∈ dang ∧
        d.propName ∉ clr := by
  unfold verifyAndReportDangerousProperties
  simp only [List.mem_map, List.mem_filter, decide_eq_true_eq]
  constructor
  · rintro ⟨p, ⟨hp, hnc⟩, rfl⟩
    exact ⟨rfl, rfl, hp, hnc⟩
  · rintro ⟨h1, h2, h3, h4⟩
    exact ⟨d.propName, ⟨h3, h4⟩, by cases d; simp_all⟩

/-- Claim C8: for a class with no `dealloc` under ARC, the class-wide scan
emits exactly one diagnostic per (interesting ivar, recorded unsafe
property) pair — a diagnostic for a pair is emitted iff the pair is
recorded, and no diagnostic repeats — and a class with no interesting
ivars yields no class-level diagnostic whatever its teardown or ARC
status. -/
theorem claim8_class_scan_one_diag_per_pair (facts : ObjCImplFacts)
    (hd : facts.hasDealloc = false)
    (hkeys : (facts.ivarFactsMap.map Prod.fst).Nodup)
    (hprops : ∀ e ∈ facts.ivarFactsMap,
      e.2.mayStoreSelfInUnsafeProperty.Nodup) :
    (∀ ivarName propName,
        (⟨ivarName, propName, "ARC-generated dealloc"⟩ : Diagnostic) ∈
            checkASTDeclScan facts true ↔
          ∃ ifacts, (ivarName, ifacts) ∈ facts.ivarFactsMap ∧
            propName ∈ ifacts.mayStoreSelfInUnsafeProperty) ∧
    (checkASTDeclScan facts true).Nodup ∧
    (∀ (g : ObjCImplFacts) (arc : Bool), g.ivarFactsMap = [] →
        checkASTDeclScan g arc = []) := by
  have hscan : checkASTDeclScan facts true =
      (facts.ivarFactsMap.map (fun e =>
        verifyAndReportDangerousProperties e.2.mayStoreSelfInUnsafeProperty []
          e.1 "ARC-generated dealloc")).flatten := by
    unfold checkASTDeclScan
    rw [if_pos]
    simp [hd]
  refine ⟨?_, ?_, ?_⟩
  · intro ivarName propName
    rw [hscan]
    simp only [List.mem_flatten, List.mem_map]
    constructor
    · intro h
      obtain ⟨l, ⟨e, he, hfe⟩, hdl⟩ := h
      subst hfe
      obtain ⟨ek, ev⟩ := e
      rcases mem_verifyAndReport.mp hdl with ⟨hiv, hdn, hp, hnc⟩
      dsimp only at hiv hp
      subst hiv
      exact ⟨ev, he, hp⟩
    · rintro ⟨ifacts, hmem, hp⟩
      refine ⟨verifyAndReportDangerousProperties
          ifacts.mayStoreSelfInUnsafeProperty [] ivarName
          "ARC-generated dealloc", ⟨(ivarName, ifacts), hmem, rfl⟩, ?_⟩
      exact mem_verifyAndReport.mpr ⟨rfl, rfl, hp, by simp⟩
  · rw [hscan]
    rw [List.nodup_flatten]
    constructor
    · intro l hl
      obtain ⟨e, he, hfe⟩ := List.mem_map.mp hl
      subst hfe
      refine List.Nodup.map ?_ ((hprops e he).filter _)
      intro a b hab
      injection hab
    · rw [List.pairwise_map]
      have hpw : facts.ivarFactsMap.Pairwise (fun a b => a.1 ≠ b.1) := by
        simpa [List.Nodup, List.pairwise_map] using hkeys
      refine hpw.imp ?_
      intro a b hne d hda hdb
      rcases mem_verifyAndReport.mp hda with ⟨ha, -, -, -⟩
      rcases mem_verifyAndReport.mp hdb with ⟨hb, -, -, -⟩
      exact hne (ha ▸ hb ▸ rfl)
  · intro g arc hg
    unfold checkASTDeclScan
    split
    · rw [hg]; rfl
    · rfl

/-- Witness for C8: the scan for scenario B is duplicate-free. -/
theorem claim8_witness : (checkASTDeclScan scenarioBFacts true).Nodup :=
  (claim8_class_scan_one_diag_per_pair scenarioBFacts (by decide) (by decide)
    (by decide)).2.1


/-- Claim C6, counterexample: on the true branch of `_x.delegate != self`
for an ivar `_x` whose recorded unsafe-property set is
`{dataSource, delegate}`, `evalAssume` adds only the matched property
`delegate` to the cleared set — it does not force the cleared set to the
full set, as the claim states (`dataSource` stays uncleared). -/
theorem claim6_counterexample :
    evalAssume (some "Foo") [("Foo", twoPropFacts)] xDelegateNeSelfCond true []
      = .ok [("_x", (⟨["delegate"], false, false⟩ : IvarDynamicState))] ∧
    (twoPropFacts.ivarFactsMap.lookup "_x").map
        IvarFacts.mayStoreSelfInUnsafeProperty =
      some ["dataSource", "delegate"] ∧
    ("dataSource" : String) ∉ (["delegate"] : StringSet) :=
  ⟨rfl, rfl, by decide⟩

/-- Claim C6 (amended): on a recognized branch-assumption comparison, the
delegate-getter shapes (`getter != self`, `getter == nil`) insert the one
matched property into the ivar's cleared set (preserving what was already
there), while the field-nil shapes (`self.x == nil`, `_x == nil`) force the
state to the all-cleared `IvarDynamicState(ivarFacts)`; in particular,
after a delegate-shaped assumption the verification emits no diagnostic
for the matched property. -/
theorem claim6_amended (currentInterface : Option String)
    (implFacts : FactsMap) (cond : SymCond) (assumption : Bool)
    (state : IvarMap) (facts : ObjCImplFacts)
    (hf : getCurrentFacts currentInterface implFacts = .ok (some facts)) :
    (∀ ivarName propName,
      (matchConditionWithInterestingDelegateNotEqualToSelf cond assumption
          facts <|>
        matchConditionWithInterestingDelegateEqualToNil cond assumption facts) =
          some (ivarName, propName) →
      (evalAssume currentInterface implFacts cond assumption state =
        .ok (ivarMapSet state ivarName
          { IvarDynamicState.ofOption (state.lookup ivarName) with
              assignPropertyWasCleared :=
                (setInsert propName (IvarDynamicState.ofOption
                  (state.lookup ivarName)).assignPropertyWasCleared) })) ∧
      (∀ d ∈ verifyCore facts (some ivarName)
          (ivarMapSet state ivarName
            { IvarDynamicState.ofOption (state.lookup ivarName) with
                assignPropertyWasCleared :=
                  (setInsert propName (IvarDynamicState.ofOption
                    (state.lookup ivarName)).assignPropertyWasCleared) }),
        d.propName ≠ propName)) ∧
    (∀ ivarName ifacts,
      (matchConditionWithInterestingDelegateNotEqualToSelf cond assumption
          facts <|>
        matchConditionWithInterestingDelegateEqualToNil cond assumption facts) =
          none →
      (matchConditionWithInterestingPropertyEqualToNil cond assumption
          facts <|>
        matchConditionWithInterestingIvarEqualToNil cond assumption facts) =
          some ivarName →
      facts.ivarFactsMap.lookup ivarName = some ifacts →
      evalAssume currentInterface implFacts cond assumption state =
        .ok (ivarMapSet state ivarName (IvarDynamicState.fromFacts ifacts))) := by
  constructor
  · intro ivarName propName hmatch
    constructor
    · unfold evalAssume
      rw [hf]
      dsimp only
      rw [hmatch]
    · intro d hd
      unfold verifyCore at hd
      dsimp only at hd
      cases hlook : facts.ivarFactsMap.lookup ivarName with
      | none =>
          rw [hlook] at hd
          exact absurd hd (List.not_mem_nil d)
      | some ifacts =>
          rw [hlook] at hd
          dsimp only at hd
          rcases mem_verifyAndReport.mp hd with ⟨-, -, -, hnc⟩
          intro hcontra
          apply hnc
          rw [lookup_ivarMapSet] at hnc ⊢
          simp only [if_pos rfl, IvarDynamicState.ofOption, Option.getD_some]
          rw [hcontra]
          exact mem_setInsert.mpr (Or.inl rfl)
  · intro ivarName ifacts hnone hsome hlook
    unfold evalAssume
    rw [hf]
    dsimp only
    rw [hnone]
    dsimp only
    rw [hsome]
    dsimp only
    rw [hlook]


/-- Witness for C6 (amended), at the concrete condition
`_x.delegate != self` taken in the true direction, in the empty per-path
state. -/
theorem claim6_witness :
    (evalAssume (some "Foo") [("Foo", twoPropFacts)] xDelegateNeSelfCond true []
      = .ok (ivarMapSet [] "_x"
        { IvarDynamicState.ofOption (List.lookup "_x" ([] : IvarMap)) with
            assignPropertyWasCleared :=
              (setInsert "delegate" (IvarDynamicState.ofOption
                (List.lookup "_x" ([] : IvarMap))).assignPropertyWasCleared) })) ∧
    (∀ d ∈ verifyCore twoPropFacts (some "_x")
        (ivarMapSet [] "_x"
          { IvarDynamicState.ofOption (List.lookup "_x" ([] : IvarMap)) with
              assignPropertyWasCleared :=
                (setInsert "delegate" (IvarDynamicState.ofOption
                  (List.lookup "_x" ([] : IvarMap))).assignPropertyWasCleared) }),
      d.propName ≠ "delegate") :=
  (claim6_amended (some "Foo") [("Foo", twoPropFacts)] xDelegateNeSelfCond true
    [] twoPropFacts rfl).1 "_x" "delegate" rfl

theorem lookup_setStateFlags (m : IvarMap) (k : String) (b3 b4 : Bool) :
    (setStateFlags b3 b4 m).lookup k = (m.lookup k).map
      (fun v => { v with targetWasCleared := b3, observerWasCleared := b4 }) := by
  unfold setStateFlags
  exact lookup_mapVal
    (fun v => { v with targetWasCleared := b3, observerWasCleared := b4 }) m k

theorem getCurrentFacts_mapVal (topIf : Option String) (implFacts : FactsMap)
    (g : ObjCImplFacts → ObjCImplFacts) :
    getCurrentFacts topIf (implFacts.map (fun e => (e.1, g e.2))) =
      (match getCurrentFacts topIf implFacts with
       | .error e => .error e
       | .ok o => .ok (o.map g)) := by
  cases topIf with
  | none => rfl
  | some n =>
      unfold getCurrentFacts
      dsimp only
      rw [lookup_mapVal]
      cases implFacts.lookup n <;> rfl

/-- Claim C10: every diagnostic the checker emits names an unsafe property
recorded in `_mayStoreSelfInUnsafeProperty` and absent from the cleared
set; the `_mayTargetSelf`/`_mayObserveSelf` facts and the
`_targetWasCleared`/`_observerWasCleared` state flags never cause nor
suppress a diagnostic — overwriting them arbitrarily leaves the output of
every diagnostic-emitting routine unchanged. -/
theorem claim10_flags_never_affect_diagnostics :
    (∀ (dang clr : StringSet) (iv dn : String),
      ∀ d ∈ verifyAndReportDangerousProperties dang clr iv dn,
        d.propName ∈ dang ∧ d.propName ∉ clr) ∧
    (∀ (facts : ObjCImplFacts) (ivd : Option String) (m : IvarMap)
        (b1 b2 b3 b4 : Bool),
      verifyCore (setFactsFlags b1 b2 facts) ivd (setStateFlags b3 b4 m) =
        verifyCore facts ivd m) ∧
    (∀ (facts : ObjCImplFacts) (arc b1 b2 : Bool),
      checkASTDeclScan (setFactsFlags b1 b2 facts) arc =
        checkASTDeclScan facts arc) ∧
    (∀ (arc : Bool) (topIf : Option String) (implFacts : FactsMap)
        (sel : Option String) (m : IvarMap) (b1 b2 b3 b4 : Bool),
      checkEndFunction arc topIf
          (implFacts.map (fun e => (e.1, setFactsFlags b1 b2 e.2))) sel
          (setStateFlags b3 b4 m) =
        checkEndFunction arc topIf implFacts sel m) := by
  refine ⟨?_, ?_, ?_, ?_⟩
  · intro dang clr iv dn d hd
    rcases mem_verifyAndReport.mp hd with ⟨-, -, h3, h4⟩
    exact ⟨h3, h4⟩
  · intro facts ivd m b1 b2 b3 b4
    cases ivd with
    | none => rfl
    | some iv =>
        unfold verifyCore setFactsFlags
        dsimp only
        rw [lookup_mapVal]
        cases hlook : facts.ivarFactsMap.lookup iv with
        | none => rfl
        | some ifacts =>
            dsimp only [Option.map_some']
            rw [lookup_setStateFlags]
            cases m.lookup iv <;> rfl
  · intro facts arc b1 b2
    unfold checkASTDeclScan setFactsFlags
    dsimp only
    split
    · simp only [List.map_map]
      exact congrArg List.flatten (List.map_congr_left (fun e _ => rfl))
    · rfl
  · intro arc topIf implFacts sel m b1 b2 b3 b4
    cases arc with
    | false => rfl
    | true =>
        unfold checkEndFunction
        rw [getCurrentFacts_mapVal]
        cases hcf : getCurrentFacts topIf implFacts with
        | error e => rfl
        | ok o =>
            cases o with
            | none => rfl
            | some facts =>
                dsimp only [Option.map_some']
                by_cases hsel : sel ≠ some "dealloc"
                · rw [if_pos hsel, if_pos hsel]
                · rw [if_neg hsel, if_neg hsel]
                  unfold setFactsFlags
                  dsimp only
                  simp only [List.map_map]
                  refine congrArg Except.ok (congrArg List.flatten
                    (List.map_congr_left ?_))
                  intro e he
                  dsimp only [Function.comp]
                  rw [lookup_setStateFlags]
                  cases m.lookup e.1 <;> rfl

/-- Witness for C10, at a concrete diagnostic of the class-wide scan. -/
theorem claim10_witness :
    ("delegate" : String) ∈ (["delegate"] : StringSet) ∧
      ("delegate" : String) ∉ ([] : StringSet) :=
  claim10_flags_never_affect_diagnostics.1 ["delegate"] [] "_bar"
    "ARC-generated dealloc"
    (⟨"_bar", "delegate", "ARC-generated dealloc"⟩ : Diagnostic) (by decide)

end DanglingDelegate
